import Mathlib

/-!
Shallow embedding of the sphereroyale authoritative match engine:
the server physics tick (src/server/services/physicsEngine.ts), the match
lifecycle (server index: startGameSequence, leader loop, admin commands),
the registration handler (routes/api.ts POST /api/register), the participant
schema (models/Participant.ts), the scheduler job (services/scheduler.ts),
the circuit breaker and retry utilities (utils/circuitBreaker.ts,
utils/retry.ts) and the payment verification service
(services/verification.ts).
-/

namespace SphereRoyale

/-- JavaScript numbers (IEEE doubles) as operated on by the physics code.
`fin q` is a finite value, carried exactly as a rational; `nonfin` stands for
the non-finite values (NaN and ±Infinity) that IEEE arithmetic produces, e.g.
on `0/0`.  Non-finite values are absorbing for the arithmetic the engine
performs and compare `false` under `<` and `≤`, as NaN does in IEEE.  (The
engine never divides a finite value by a non-finite one and never feeds an
Infinity into a context where it would turn finite again, so collapsing NaN
and Infinity into one absorbing element is faithful on every computation
analysed below.) -/
inductive F where
  | nonfin : F
  | fin : ℚ → F
deriving DecidableEq, Repr

namespace F

/-- IEEE addition on the modelled values. -/
def add : F → F → F
  | fin a, fin b => fin (a + b)
  | _, _ => nonfin

/-- IEEE subtraction on the modelled values. -/
def sub : F → F → F
  | fin a, fin b => fin (a - b)
  | _, _ => nonfin

/-- IEEE multiplication on the modelled values. -/
def mul : F → F → F
  | fin a, fin b => fin (a * b)
  | _, _ => nonfin

/-- IEEE division: a finite value divided by zero is NaN or ±Infinity,
i.e. `nonfin`. -/
def div : F → F → F
  | fin a, fin b => if b = 0 then nonfin else fin (a / b)
  | _, _ => nonfin

/-- IEEE negation. -/
def neg : F → F
  | fin a => fin (-a)
  | nonfin => nonfin

/-- `Math.abs`: NaN stays NaN. -/
def abs : F → F
  | fin a => fin |a|
  | nonfin => nonfin

instance : Add F := ⟨add⟩

instance : Sub F := ⟨sub⟩

instance : Mul F := ⟨mul⟩

instance : Div F := ⟨div⟩

instance : Neg F := ⟨neg⟩

/-- IEEE `<`: any comparison with NaN is false. -/
def lt : F → F → Bool
  | fin a, fin b => decide (a < b)
  | _, _ => false

/-- IEEE `<=`: any comparison with NaN is false. -/
def le : F → F → Bool
  | fin a, fin b => decide (a ≤ b)
  | _, _ => false

/-- Fueled digit-by-digit integer square root (structural recursion, so a
concrete evaluation reduces in the kernel; `fuel ≥ n` makes it total). -/
def isqrtAux : ℕ → ℕ → ℕ
  | 0, _ => 0
  | fuel + 1, n =>
      if n ≤ 1 then n
      else
        let r := 2 * isqrtAux fuel (n / 4)
        if (r + 1) * (r + 1) ≤ n then r + 1 else r

/-- Integer square root (floor), kernel-reducible. -/
def isqrt (n : ℕ) : ℕ := isqrtAux n n

/-- `Math.sqrt`, exact on rationals whose square root is rational (every
value at which a theorem below inspects it: the engine only takes square
roots of squared distances, and the concrete traces analysed keep those
rational).  A rational whose square root is irrational has no exact value in
this model and is mapped to `nonfin`; no theorem below depends on `sqrt` at
such an input.  Negative inputs give NaN as in IEEE. -/
def sqrt : F → F
  | fin q =>
      if q < 0 then nonfin
      else
        if isqrt q.num.toNat * isqrt q.num.toNat = q.num.toNat ∧
            isqrt q.den * isqrt q.den = q.den then
          fin ((isqrt q.num.toNat : ℚ) / (isqrt q.den : ℚ))
        else nonfin
  | nonfin => nonfin

/-- `Math.pow` as the friction decay uses it: exact when the exponent is a
nonnegative integer (the case every concrete evaluation below exercises);
other exponents give irrational powers, which are mapped to `nonfin` — no
theorem below depends on `pow` at such an input. -/
def pow : F → F → F
  | fin b, fin e =>
      if e.den = 1 ∧ 0 ≤ e.num then fin (b ^ e.num.toNat) else nonfin
  | _, _ => nonfin

end F

-- ---------------------------------------------------------------------------
-- constants.ts
-- ---------------------------------------------------------------------------

/-- constants.ts: ARENA_WIDTH. -/
def ARENA_WIDTH : F := .fin 1200

/-- constants.ts: ARENA_HEIGHT. -/
def ARENA_HEIGHT : F := .fin 800

/-- constants.ts: FRICTION = 0.995. -/
def FRICTION : F := .fin (995 / 1000)

/-- constants.ts: ELASTICITY = 0.8. -/
def ELASTICITY : F := .fin (8 / 10)

/-- constants.ts: WALL_DAMPING = 0.7. -/
def WALL_DAMPING : F := .fin (7 / 10)

/-- constants.ts: COLOR_PALETTE. -/
def COLOR_PALETTE : List String :=
  ["#ef4444", "#f97316", "#f59e0b", "#84cc16", "#10b981", "#06b6d4",
   "#3b82f6", "#6366f1", "#8b5cf6", "#d946ef", "#f43f5e"]

-- ---------------------------------------------------------------------------
-- types.ts
-- ---------------------------------------------------------------------------

/-- types.ts: GameStatus. -/
inductive GameStatus where
  | IDLE
  | WAITING
  | GENERATING
  | PLAYING
  | FINISHED
deriving DecidableEq, Repr

/-- types.ts: Sphere (the combat unit mutated by the physics tick). -/
structure Sphere where
  id : String
  name : String
  personality : String
  walletAddress : Option String
  x : F
  y : F
  vx : F
  vy : F
  radius : F
  mass : F
  color : String
  health : F
  maxHealth : F
  damageTaken : F
  isEliminated : Bool
  kills : ℕ
deriving DecidableEq, Repr

/-- Default sphere used for (never reached) out-of-range list reads in the
index loops below. -/
def defaultSphere : Sphere :=
  { id := "", name := "", personality := "", walletAddress := none,
    x := .fin 0, y := .fin 0, vx := .fin 0, vy := .fin 0,
    radius := .fin 0, mass := .fin 0, color := "",
    health := .fin 0, maxHealth := .fin 0, damageTaken := .fin 0,
    isEliminated := false, kills := 0 }

instance : Inhabited Sphere := ⟨defaultSphere⟩

/-- The events `updateServerPhysicsEngine` pushes through `onEvent`
(physicsEngine.ts lines 87, 95, 106, 108). -/
inductive GameEvent where
  | collision (force : F) (s1 s2 : String) (locX locY : F)
  | eliminated (target targetId : String)
  | win (winner : String)
  | draw
deriving DecidableEq, Repr

-- ---------------------------------------------------------------------------
-- physicsEngine.ts
-- ---------------------------------------------------------------------------

/-- physicsEngine.ts lines 22-27: per-sphere movement integration;
`x += vx*dt` and frame-rate-independent friction
`vx *= Math.pow(FRICTION, dt / (1000/60))`. -/
def moveSphere (dt : F) (s : Sphere) : Sphere :=
  let decay := F.pow FRICTION (dt / (F.fin 1000 / F.fin 60))
  { s with
    x := s.x + s.vx * dt,
    y := s.y + s.vy * dt,
    vx := s.vx * decay,
    vy := s.vy * decay }

/-- physicsEngine.ts lines 33-36: wall collisions — clamp the position per
axis and invert-and-damp the matching velocity component. -/
def wallCollide (s : Sphere) : Sphere :=
  let s := if F.lt (s.x - s.radius) (F.fin 0) then
      { s with x := s.radius, vx := s.vx * (-WALL_DAMPING) } else s
  let s := if F.lt ARENA_WIDTH (s.x + s.radius) then
      { s with x := ARENA_WIDTH - s.radius, vx := s.vx * (-WALL_DAMPING) } else s
  let s := if F.lt (s.y - s.radius) (F.fin 0) then
      { s with y := s.radius, vy := s.vy * (-WALL_DAMPING) } else s
  let s := if F.lt ARENA_HEIGHT (s.y + s.radius) then
      { s with y := ARENA_HEIGHT - s.radius, vy := s.vy * (-WALL_DAMPING) } else s
  s

/-- physicsEngine.ts lines 40-90: one pairwise interaction between spheres
`s` and `s2` — overlap resolution weighted inversely by mass, impulse
resolution when approaching (with the elasticity bound as in the source:
`const e = ELASTICITY`, passed here as the parameter `e`), and damage plus a
`collision` event when the impulse magnitude exceeds 50. -/
def collidePair (e : F) (s s2 : Sphere) : Sphere × Sphere × List GameEvent :=
  let dx := s2.x - s.x
  let dy := s2.y - s.y
  let dist := F.sqrt (dx * dx + dy * dy)
  let minDist := s.radius + s2.radius
  if F.lt dist minDist then
    let overlap := minDist - dist
    let dirX := dx / dist
    let dirY := dy / dist
    let m1 := s.mass
    let m2 := s2.mass
    let totalMass := m1 + m2
    let r1 := m2 / totalMass
    let r2 := m1 / totalMass
    let s := { s with x := s.x - dirX * overlap * r1, y := s.y - dirY * overlap * r1 }
    let s2 := { s2 with x := s2.x + dirX * overlap * r2, y := s2.y + dirY * overlap * r2 }
    let rvx := s2.vx - s.vx
    let rvy := s2.vy - s.vy
    let velAlongNormal := rvx * dirX + rvy * dirY
    if F.lt velAlongNormal (F.fin 0) then
      let jImpulse := -(F.fin 1 + e) * velAlongNormal / (F.fin 1 / m1 + F.fin 1 / m2)
      let impulseX := jImpulse * dirX
      let impulseY := jImpulse * dirY
      let s := { s with vx := s.vx - impulseX / m1, vy := s.vy - impulseY / m1 }
      let s2 := { s2 with vx := s2.vx + impulseX / m2, vy := s2.vy + impulseY / m2 }
      let impactForce := F.abs jImpulse
      if F.lt (F.fin 50) impactForce then
        let damage := impactForce * F.fin (5 / 100)
        let s := { s with health := s.health - damage, damageTaken := s.damageTaken + damage }
        let s2 := { s2 with health := s2.health - damage, damageTaken := s2.damageTaken + damage }
        (s, s2,
          [GameEvent.collision impactForce s.id s2.id
            ((s.x + s2.x) / F.fin 2) ((s.y + s2.y) / F.fin 2)])
      else (s, s2, [])
    else (s, s2, [])
  else (s, s2, [])

/-- Inner-loop body (physicsEngine.ts lines 38-91): run the pairwise
interaction between spheres at indices `i` and `j` of the array, writing
both back (the source mutates `nextSpheres[i]` and `nextSpheres[j]` in
place). -/
def pairAt (i : ℕ) (st : List Sphere × List GameEvent) (j : ℕ) :
    List Sphere × List GameEvent :=
  let arr := st.1
  let s := arr.getD i defaultSphere
  let s2 := arr.getD j defaultSphere
  let r := collidePair ELASTICITY s s2
  ((arr.set i r.1).set j r.2.1, st.2 ++ r.2.2)

/-- Outer-loop body (physicsEngine.ts lines 29-97) for index `i`: wall
collision for sphere `i`, then the pair loop over `j = i+1 .. n-1`, then the
elimination check for sphere `i` (health ≤ 0 marks it eliminated and emits
an `eliminated` event). -/
def outerAt (st : List Sphere × List GameEvent) (i : ℕ) :
    List Sphere × List GameEvent :=
  let arr := st.1.set i (wallCollide (st.1.getD i defaultSphere))
  let st2 := ((List.range arr.length).drop (i + 1)).foldl (pairAt i) (arr, st.2)
  let s := st2.1.getD i defaultSphere
  if F.le s.health (F.fin 0) then
    (st2.1.set i { s with isEliminated := true },
      st2.2 ++ [GameEvent.eliminated s.name s.id])
  else st2

/-- physicsEngine.ts: BackendPhysicsContext (the sphere array and the status
reference; `setGameStatus` and `onEvent` become the returned status and
event list). -/
structure PhysicsContext where
  currentSpheres : List Sphere
  gameStatus : GameStatus
deriving DecidableEq, Repr

/-- Result of one physics tick: the reassigned sphere array
(`context.currentSpheres = nextSpheres`), the status after any
`setGameStatus` call, and the events passed to `onEvent`, in order. -/
structure StepResult where
  spheres : List Sphere
  status : GameStatus
  events : List GameEvent
deriving DecidableEq, Repr

/-- physicsEngine.ts lines 14-114: `updateServerPhysicsEngine(dt, context)`.
Guard (line 17): returns untouched unless status is PLAYING — the source has
no guard on `dt`.  Then movement, the wall/pair/elimination loops, and the
terminal check comparing the alive count before the tick (computed from the
input array) with the count after filtering eliminated spheres. -/
def updateServerPhysicsEngine (dt : F) (context : PhysicsContext) : StepResult :=
  if context.gameStatus ≠ GameStatus.PLAYING then
    { spheres := context.currentSpheres, status := context.gameStatus, events := [] }
  else
    let next := context.currentSpheres.map (moveSphere dt)
    let looped := (List.range next.length).foldl outerAt (next, [])
    let aliveOld := (context.currentSpheres.filter (fun s => !s.isEliminated)).length
    let nextFiltered := looped.1.filter (fun s => !s.isEliminated)
    let aliveNew := nextFiltered.length
    if aliveOld > 1 ∧ aliveNew ≤ 1 then
      if aliveNew = 1 then
        { spheres := nextFiltered, status := GameStatus.FINISHED,
          events := looped.2 ++ [GameEvent.win (nextFiltered.headD defaultSphere).name] }
      else
        { spheres := nextFiltered, status := GameStatus.FINISHED,
          events := looped.2 ++ [GameEvent.draw] }
    else
      { spheres := nextFiltered, status := context.gameStatus, events := looped.2 }

-- ---------------------------------------------------------------------------
-- models/Participant.ts
-- ---------------------------------------------------------------------------

/-- Participant.chain ∈ TON | SOL. -/
inductive Chain where
  | TON
  | SOL
deriving DecidableEq, Repr

/-- models/Participant.ts: RegistrationStatus, PENDING → CONFIRMED | FAILED. -/
inductive RegStatus where
  | PENDING
  | CONFIRMED
  | FAILED
deriving DecidableEq, Repr

/-- models/Participant.ts: one Participant document. -/
structure ParticipantRec where
  username : String
  walletAddress : String
  chain : Chain
  paymentTxHash : String
  normalizedTxId : String
  gameId : String
  status : RegStatus
  statusReason : Option String
  joinedAt : ℤ
deriving DecidableEq, Repr

/-- The string the schema stores for a chain (the enum values
of models/Participant.ts). -/
def chainLabel : Chain → String
  | .TON => "TON"
  | .SOL => "SOL"

-- ---------------------------------------------------------------------------
-- models/Match.ts (the fields the lifecycle writes)
-- ---------------------------------------------------------------------------

/-- Match.status string enum. -/
inductive MatchStatus where
  | GENERATING
  | PLAYING
  | FINISHED
  | CANCELLED
deriving DecidableEq, Repr

/-- One entry of the frozen participant snapshot persisted on the Match. -/
structure SnapshotEntry where
  name : String
  walletAddress : Option String
  chain : Option Chain
  isBot : Bool
deriving DecidableEq, Repr

/-- models/Match.ts: one Match document (the fields startGameSequence
touches). -/
structure MatchRec where
  gameId : String
  status : MatchStatus
  scheduledAt : ℤ
  startedAt : Option ℤ
  endedAt : Option ℤ
  totalPlayers : ℕ
  participants : List SnapshotEntry
  cancelReason : Option String
deriving DecidableEq, Repr

/-- The persistent store as startGameSequence and the register handler see
it: the Match collection, the Participant collection and the singleton
Schedule record's nextGameTime. -/
structure Db where
  matchRows : List MatchRec
  participants : List ParticipantRec
  scheduleNextGameTime : Option ℤ
deriving DecidableEq, Repr

-- ---------------------------------------------------------------------------
-- server index: serverGameState and startGameSequence
-- ---------------------------------------------------------------------------

/-- The in-memory `serverGameState` object of the server index module. -/
structure ServerGameState where
  status : GameStatus
  spheres : List Sphere
  nextGameTime : Option ℤ
  totalPlayers : ℕ
  currentGameId : String
  prevStatus : GameStatus
deriving DecidableEq, Repr

/-- Result of one `startGameSequence()` call: the mutated in-memory state,
the mutated store, and the socket broadcasts that were emitted (coarsely, by
event name). -/
structure StartResult where
  state : ServerGameState
  db : Db
  emits : List String
deriving DecidableEq, Repr

/-- Insert one participant into a list sorted by ascending joinedAt
(after any equal keys, so the sort is stable). -/
def insertByJoinedAt (p : ParticipantRec) : List ParticipantRec → List ParticipantRec
  | [] => [p]
  | q :: rest =>
      if p.joinedAt < q.joinedAt then p :: q :: rest
      else q :: insertByJoinedAt p rest

/-- `Participant.find(...).sort(joinedAt ascending)` — a stable sort by
joinedAt. -/
def sortByJoinedAt : List ParticipantRec → List ParticipantRec
  | [] => []
  | p :: rest => insertByJoinedAt p (sortByJoinedAt rest)

/-- The per-entity data `startGameSequence` combines before building the
snapshot and the sphere set (`combinedData` in the source: confirmed humans
first, then synthesized bots). -/
structure EntityData where
  name : String
  personality : String
  walletAddress : Option String
  chain : Option Chain
deriving DecidableEq, Repr

/-- Build one sphere of the initial set (server index, sphere construction
inside startGameSequence): random spawn position inside the arena margins,
random bounded velocity, fixed radius 25 = mass, health 100, humans (index
below humanCount) in the cyan human palette.  `rand` is the stream of
`Math.random()` draws, consumed four per sphere. -/
def buildSphere (rand : ℕ → ℚ) (humanCount : ℕ) (index : ℕ) (data : EntityData) : Sphere :=
  { id := "sphere-" ++ toString index,
    name := if data.name = "" then "Unit-" ++ toString index else data.name,
    personality := if data.personality = "" then "Neutral" else data.personality,
    walletAddress := data.walletAddress,
    x := .fin (100 + rand (4 * index) * (1200 - 200)),
    y := .fin (100 + rand (4 * index + 1) * (800 - 200)),
    vx := .fin ((rand (4 * index + 2) - 1 / 2) * 15),
    vy := .fin ((rand (4 * index + 3) - 1 / 2) * 15),
    radius := .fin 25,
    mass := .fin 25,
    color := if index < humanCount then "#00f3ff"
             else (COLOR_PALETTE.getD (index % COLOR_PALETTE.length) ""),
    health := .fin 100,
    maxHealth := .fin 100,
    damageTaken := .fin 0,
    isEliminated := false,
    kills := 0 }

/-- Server index `startGameSequence()` (the success path; the catch-branch
only fires when a store write throws, which the pure store model cannot).
Guard: no-op unless status is IDLE.  Otherwise: generate the new
time-derived gameId, persist a Match in GENERATING, snapshot the CONFIRMED
participants registered *for that new gameId* ordered by join time, fill
with `max(0, totalPlayers - humans)` bots, build the sphere set, flip the
Match (and the in-memory status) to PLAYING with the frozen snapshot, and
clear the schedule.  `now` is `Date.now()` and `rand` the `Math.random()`
stream. -/
def startGameSequence (now : ℤ) (rand : ℕ → ℚ) (st : ServerGameState) (db : Db) :
    StartResult :=
  if st.status ≠ GameStatus.IDLE then
    { state := st, db := db, emits := [] }
  else
    let gameId := "game-" ++ toString now
    let st := { st with currentGameId := gameId,
                        status := GameStatus.GENERATING,
                        prevStatus := GameStatus.GENERATING }
    let matchDoc : MatchRec :=
      { gameId := gameId, status := .GENERATING,
        scheduledAt := st.nextGameTime.getD now,
        startedAt := none, endedAt := none,
        totalPlayers := st.totalPlayers, participants := [],
        cancelReason := none }
    let db := { db with matchRows := db.matchRows ++ [matchDoc] }
    let confirmed := sortByJoinedAt (db.participants.filter
      (fun p => p.gameId == gameId && p.status == RegStatus.CONFIRMED))
    let humanCount := confirmed.length
    let botsNeeded := st.totalPlayers - humanCount
    let botData := (List.range botsNeeded).map (fun i =>
      ({ name := "BOT-" ++ toString i, personality := "Robot",
         walletAddress := none, chain := none } : EntityData))
    let combinedData :=
      confirmed.map (fun p =>
        ({ name := p.username, personality := "Human",
           walletAddress := some p.walletAddress, chain := some p.chain } : EntityData))
      ++ botData
    let participantSnapshot := combinedData.map (fun d =>
      ({ name := d.name, walletAddress := d.walletAddress, chain := d.chain,
         isBot := d.personality == "Robot" } : SnapshotEntry))
    let spheres := combinedData.enum.map (fun ia =>
      buildSphere rand humanCount ia.1 ia.2)
    let db := { db with matchRows := db.matchRows.map (fun (m : MatchRec) =>
      if m.gameId == gameId then
        { m with status := .PLAYING, startedAt := some now,
                 participants := participantSnapshot }
      else m) }
    let st := { st with spheres := spheres,
                        status := GameStatus.PLAYING,
                        prevStatus := GameStatus.PLAYING,
                        nextGameTime := none }
    let db := { db with scheduleNextGameTime := none }
    { state := st, db := db, emits := ["gameStarted"] }

/-- A sequence of `startGameSequence` triggers (scheduler firings and/or
manual admin commands), threaded through state and store. -/
def iterateStart : List (ℤ × (ℕ → ℚ)) → ServerGameState → Db → ServerGameState × Db
  | [], st, db => (st, db)
  | c :: rest, st, db =>
      let r := startGameSequence c.1 c.2 st db
      iterateStart rest r.state r.db

-- ---------------------------------------------------------------------------
-- routes/api.ts: POST /api/register
-- ---------------------------------------------------------------------------

/-- The body of a POST /api/register request (after Joi validation: chain is
one of the two enum values). -/
structure RegRequest where
  username : String
  walletAddress : String
  chain : Chain
  paymentTxHash : String
deriving DecidableEq, Repr

/-- The HTTP outcomes of the register handler. -/
inductive RegResponse where
  | created
  | conflictTxUsed
  | conflictUsername
  | walletLimitReached
  | verificationFailed
deriving DecidableEq, Repr

/-- JavaScript `toLowerCase()` on the strings the handler compares
(character-wise lowercasing; `String.toLower` itself, being byte-position
recursion, does not reduce in the kernel). -/
def strToLower (s : String) : String := String.mk (s.data.map Char.toLower)

/-- Step 1 of the handler: the chain-prefixed, hash-lowercased normalized
transaction identity. -/
def normalizedTxIdOf (req : RegRequest) : String :=
  chainLabel req.chain ++ ":" ++ strToLower req.paymentTxHash

/-- routes/api.ts POST /api/register: replay check on normalizedTxId,
case-insensitive per-game username check (collation strength 2), per-game
wallet limit over CONFIRMED registrations, then create PENDING and settle to
CONFIRMED or FAILED according to the verification outcome (`verifyOk` is the
boolean produced by the chain verifier; the save-then-updateOne-by-id pair
is collapsed into appending the record with its settled status). -/
def registerHandler (db : List ParticipantRec) (currentGameId : String)
    (req : RegRequest) (verifyOk : Bool) (now : ℤ) :
    RegResponse × List ParticipantRec :=
  let gameId := currentGameId
  let normalizedTxId := normalizedTxIdOf req
  if db.any (fun p => p.normalizedTxId == normalizedTxId) then
    (.conflictTxUsed, db)
  else if db.any (fun p =>
      strToLower p.username == strToLower req.username && p.gameId == gameId) then
    (.conflictUsername, db)
  else if 8 ≤ (db.filter (fun p =>
      p.walletAddress == req.walletAddress && p.gameId == gameId &&
      p.status == RegStatus.CONFIRMED)).length then
    (.walletLimitReached, db)
  else
    let newP : ParticipantRec :=
      { username := req.username, walletAddress := req.walletAddress,
        chain := req.chain, paymentTxHash := req.paymentTxHash,
        normalizedTxId := normalizedTxId, gameId := gameId,
        status := .PENDING, statusReason := none, joinedAt := now }
    if verifyOk then
      (.created, db ++ [{ newP with status := .CONFIRMED }])
    else
      let failedP : ParticipantRec :=
        { newP with status := .FAILED,
                    statusReason := some "Transaction verification failed" }
      (.verificationFailed, db ++ [failedP])

-- ---------------------------------------------------------------------------
-- utils/circuitBreaker.ts
-- ---------------------------------------------------------------------------

/-- utils/circuitBreaker.ts: CircuitState. -/
inductive CircuitState where
  | CLOSED
  | OPEN
  | HALF_OPEN
deriving DecidableEq, Repr

/-- utils/circuitBreaker.ts: the breaker's mutable fields plus its options. -/
structure CircuitBreaker where
  state : CircuitState
  failureCount : ℕ
  nextAttemptAt : ℤ
  failureThreshold : ℕ
  resetTimeoutMs : ℤ
deriving DecidableEq, Repr

/-- What one `execute` call did: fail fast while OPEN without invoking the
wrapped operation, or invoke it once and return / rethrow its outcome. -/
inductive ExecResult (α : Type) where
  | fastFailOpen
  | ok (a : α)
  | err
deriving DecidableEq, Repr

/-- `onSuccess`: reset the consecutive-failure counter; a HALF_OPEN probe
success closes the circuit. -/
def CircuitBreaker.onSuccess (cb : CircuitBreaker) : CircuitBreaker :=
  let cb := { cb with failureCount := 0 }
  if cb.state = .HALF_OPEN then { cb with state := .CLOSED } else cb

/-- `onFailure`: bump the counter; at the threshold, open the circuit and
set the resume timestamp `now + resetTimeoutMs`. -/
def CircuitBreaker.onFailure (now : ℤ) (cb : CircuitBreaker) : CircuitBreaker :=
  let cb := { cb with failureCount := cb.failureCount + 1 }
  if cb.failureThreshold ≤ cb.failureCount then
    { cb with state := .OPEN, nextAttemptAt := now + cb.resetTimeoutMs }
  else cb

/-- utils/circuitBreaker.ts `execute`: while OPEN and before the resume
timestamp, throw without invoking; at/after it, move to HALF_OPEN and let
the call through as a probe; then run the operation (its outcome is the
`op` argument) and apply onSuccess / onFailure. -/
def CircuitBreaker.execute (cb : CircuitBreaker) (now : ℤ) (op : Except Unit α) :
    CircuitBreaker × ExecResult α :=
  if cb.state = .OPEN ∧ now < cb.nextAttemptAt then
    (cb, .fastFailOpen)
  else
    let cb := if cb.state = .OPEN then { cb with state := .HALF_OPEN } else cb
    match op with
    | .ok a => (cb.onSuccess, .ok a)
    | .error _ => (cb.onFailure now, .err)

-- ---------------------------------------------------------------------------
-- utils/retry.ts
-- ---------------------------------------------------------------------------

/-- utils/retry.ts: RetryOptions. -/
structure RetryOptions where
  maxRetries : ℕ
  baseDelayMs : ℚ
  maxDelayMs : ℚ
  timeoutMs : Option ℚ
deriving DecidableEq, Repr

/-- The error `withRetry` can end with: the operation's own thrown error, or
the timeout error created by `withTimeout`. -/
inductive RetryError (ε : Type) where
  | op (e : ε)
  | timedOut (ms : ℚ)
deriving DecidableEq, Repr

/-- Decidable equality of settled promise results. -/
instance [DecidableEq ε] [DecidableEq α] : DecidableEq (Except ε α) := fun x y =>
  match x, y with
  | .ok a, .ok b =>
      if h : a = b then .isTrue (by rw [h]) else .isFalse (by simp [h])
  | .error a, .error b =>
      if h : a = b then .isTrue (by rw [h]) else .isFalse (by simp [h])
  | .ok _, .error _ => .isFalse (by simp)
  | .error _, .ok _ => .isFalse (by simp)

/-- One invocation of the wrapped operation: its settled result and how long
it took (driving the `withTimeout` race). -/
structure Attempt (ε α : Type) where
  result : Except ε α
  durationMs : ℚ
deriving DecidableEq, Repr

/-- utils/retry.ts `withTimeout`: race the operation against a timer — the
timer wins exactly when the operation takes longer than `ms`. -/
def withTimeout (a : Attempt ε α) (ms : ℚ) : Except (RetryError ε) α :=
  if ms < a.durationMs then .error (.timedOut ms)
  else
    match a.result with
    | .ok v => .ok v
    | .error e => .error (.op e)

/-- The settled outcome of attempt number `i` as `withRetry` sees it:
wrapped by `withTimeout` when `timeoutMs` is set (and truthy — 0 is falsy in
the source's `if (timeoutMs)`). -/
def attemptOutcome (attempts : ℕ → Attempt ε α) (options : RetryOptions) (i : ℕ) :
    Except (RetryError ε) α :=
  match options.timeoutMs with
  | some ms =>
      if ms = 0 then
        match (attempts i).result with
        | .ok v => .ok v
        | .error e => .error (.op e)
      else withTimeout (attempts i) ms
  | none =>
      match (attempts i).result with
      | .ok v => .ok v
      | .error e => .error (.op e)

/-- The observable trace of a `withRetry` run: the final settled result, how
many times the operation was invoked, and the jittered backoff delays
actually waited. -/
structure RetryTrace (ε α : Type) where
  result : Except (RetryError ε) α
  invocations : ℕ
  delays : List ℚ
deriving DecidableEq, Repr

/-- utils/retry.ts `withRetry`: try the operation; on failure, if
`attempt > maxRetries` rethrow the error unchanged, otherwise wait
`Math.random() * min(maxDelayMs, baseDelayMs * 2^(attempt-1))` (full
jitter; `rands i ∈ [0,1)` is the `Math.random()` draw of attempt `i`) and
recurse with `attempt + 1`. -/
def withRetry (attempts : ℕ → Attempt ε α) (rands : ℕ → ℚ)
    (options : RetryOptions) (attempt : ℕ) : RetryTrace ε α :=
  match attemptOutcome attempts options attempt with
  | .ok v => { result := .ok v, invocations := 1, delays := [] }
  | .error e =>
      if h : options.maxRetries < attempt then
        { result := .error e, invocations := 1, delays := [] }
      else
        let delay := min options.maxDelayMs (options.baseDelayMs * 2 ^ (attempt - 1))
        let jitteredDelay := rands attempt * delay
        let rest := withRetry attempts rands options (attempt + 1)
        { result := rest.result, invocations := 1 + rest.invocations,
          delays := jitteredDelay :: rest.delays }
termination_by options.maxRetries + 1 - attempt
decreasing_by omega

-- ---------------------------------------------------------------------------
-- services/verification.ts
-- ---------------------------------------------------------------------------

/-- The configuration the verifier reads (config.ts values). -/
structure VerifyConfig where
  SOL_RECIPIENT : String
  SOL_USDT_MINT : String
  TON_RECIPIENT : String
  TON_JETTON_MASTER : String
  REQUIRED_AMOUNT_ATOMIC : ℤ
deriving DecidableEq, Repr

/-- One pre/post token balance entry of a fetched Solana transaction
(owner, mint, and `uiTokenAmount.amount` in atomic units). -/
structure TokenBalance where
  owner : String
  mint : String
  amount : ℤ
deriving DecidableEq, Repr

/-- The fields of a fetched Solana transaction the verifier inspects. -/
structure SolanaTx where
  metaErr : Bool
  staticAccountKeys : List String
  preTokenBalances : List TokenBalance
  postTokenBalances : List TokenBalance
deriving DecidableEq, Repr

/-- One entry of a TonCenter v3 `/jetton/transfers` response. -/
structure TonTransfer where
  source : String
  destination : String
  jettonMaster : String
  amount : ℤ
deriving DecidableEq, Repr

/-- The outcome of one verification call: the boolean result, the cache
contents afterwards, and how many chain lookups (RPC round-trips) were
performed. -/
structure VerifyOutcome where
  verified : Bool
  cache : List String
  rpcLookups : ℕ
deriving DecidableEq, Repr

/-- The Redis key both verifiers use: `tx_verify:` followed by the raw
transaction hash — no chain discriminator. -/
def cacheKey (txHash : String) : String := "tx_verify:" ++ txHash

/-- services/verification.ts `verifySolanaTransaction`: cache short-circuit
on `tx_verify:hash`, then the strict checks over the fetched transaction
(`rpcTx` is what the endpoint loop produced; `none` when the tx was not
found or every endpoint failed): success error-free, sender among the
account keys, recipient delta and sender delta in the configured mint both
at least the required fee; on pass, write the cache key (24h TTL in the
source; the window is not modelled). -/
def verifySolanaTransaction (cfg : VerifyConfig) (cache : List String)
    (rpcTx : Option SolanaTx) (txHash expectedWallet : String) : VerifyOutcome :=
  if cache.contains (cacheKey txHash) then
    { verified := true, cache := cache, rpcLookups := 0 }
  else
    match rpcTx with
    | none => { verified := false, cache := cache, rpcLookups := 1 }
    | some tx =>
      if tx.metaErr then { verified := false, cache := cache, rpcLookups := 1 }
      else if ¬ tx.staticAccountKeys.contains expectedWallet then
        { verified := false, cache := cache, rpcLookups := 1 }
      else
        let recipientPre := tx.preTokenBalances.find? (fun b =>
          b.owner == cfg.SOL_RECIPIENT && b.mint == cfg.SOL_USDT_MINT)
        let recipientPost := tx.postTokenBalances.find? (fun b =>
          b.owner == cfg.SOL_RECIPIENT && b.mint == cfg.SOL_USDT_MINT)
        match recipientPost with
        | none => { verified := false, cache := cache, rpcLookups := 1 }
        | some post =>
          let preBal := (recipientPre.map TokenBalance.amount).getD 0
          let receivedAmount := post.amount - preBal
          if receivedAmount < cfg.REQUIRED_AMOUNT_ATOMIC then
            { verified := false, cache := cache, rpcLookups := 1 }
          else
            let senderPre := tx.preTokenBalances.find? (fun b =>
              b.owner == expectedWallet && b.mint == cfg.SOL_USDT_MINT)
            let senderPost := tx.postTokenBalances.find? (fun b =>
              b.owner == expectedWallet && b.mint == cfg.SOL_USDT_MINT)
            match senderPre with
            | none => { verified := false, cache := cache, rpcLookups := 1 }
            | some sp =>
              let senderDelta := sp.amount - (senderPost.map TokenBalance.amount).getD 0
              if senderDelta < cfg.REQUIRED_AMOUNT_ATOMIC then
                { verified := false, cache := cache, rpcLookups := 1 }
              else
                { verified := true, cache := cacheKey txHash :: cache, rpcLookups := 1 }

/-- `normalizeTonAddress`: parse to raw form (`parseRaw` stands for
`Address.parse(..).toRawString()`, `none` when parsing throws), falling back
to lowercasing. -/
def normalizeTonAddress (parseRaw : String → Option String) (addr : String) : String :=
  match parseRaw addr with
  | some raw => raw
  | none => addr.toLower

/-- `verifyViaJettonTransfers`: `none` = fall back (endpoints failed or no
transfers for the hash), `some b` = definitive pass/fail over the returned
transfer list. -/
def verifyViaJettonTransfers (cfg : VerifyConfig) (parseRaw : String → Option String)
    (resp : Option (List TonTransfer))
    (normalizedSender normalizedRecipient normalizedJettonMaster : String) :
    Option Bool :=
  match resp with
  | none => none
  | some transfers =>
    if transfers.isEmpty then none
    else if transfers.any (fun t =>
        normalizeTonAddress parseRaw t.source == normalizedSender &&
        normalizeTonAddress parseRaw t.destination == normalizedRecipient &&
        normalizeTonAddress parseRaw t.jettonMaster == normalizedJettonMaster &&
        decide (cfg.REQUIRED_AMOUNT_ATOMIC ≤ t.amount)) then
      some true
    else some false

/-- services/verification.ts `verifyTonTransaction`: the same unprefixed
cache short-circuit, then the v3 jetton-transfer check and, when it yields
nothing, the weaker v2 existence fallback (`v2Found` = `data.ok` with a
nonempty result list; `none` when every v2 endpoint failed).  A pass by
either path writes the cache key. -/
def verifyTonTransaction (cfg : VerifyConfig) (parseRaw : String → Option String)
    (cache : List String) (jettonResp : Option (List TonTransfer))
    (v2Found : Option Bool) (txHash expectedWallet : String) : VerifyOutcome :=
  if cache.contains (cacheKey txHash) then
    { verified := true, cache := cache, rpcLookups := 0 }
  else
    let normalizedRecipient := normalizeTonAddress parseRaw cfg.TON_RECIPIENT
    let normalizedSender := normalizeTonAddress parseRaw expectedWallet
    let normalizedJettonMaster := normalizeTonAddress parseRaw cfg.TON_JETTON_MASTER
    match verifyViaJettonTransfers cfg parseRaw jettonResp
        normalizedSender normalizedRecipient normalizedJettonMaster with
    | some true => { verified := true, cache := cacheKey txHash :: cache, rpcLookups := 1 }
    | some false => { verified := false, cache := cache, rpcLookups := 1 }
    | none =>
      match v2Found with
      | some true => { verified := true, cache := cacheKey txHash :: cache, rpcLookups := 2 }
      | _ => { verified := false, cache := cache, rpcLookups := 2 }

-- ---------------------------------------------------------------------------
-- Concrete inputs used by the theorems below
-- ---------------------------------------------------------------------------

/-- A sphere as `startGameSequence` builds them (radius 25 = mass, health
100), placed at the given coordinates with the given velocity and health. -/
def mkSphere (sid nm : String) (px py velx vely hp : ℚ) : Sphere :=
  { id := sid, name := nm, personality := "Robot", walletAddress := none,
    x := .fin px, y := .fin py, vx := .fin velx, vy := .fin vely,
    radius := .fin 25, mass := .fin 25, color := "#ef4444",
    health := .fin hp, maxHealth := .fin 100, damageTaken := .fin 0,
    isEliminated := false, kills := 0 }

/-- Two spheres at identical coordinates (the zero-distance degeneracy). -/
def coincidentA : Sphere := mkSphere "sphere-0" "A" 600 400 0 0 100

/-- Second sphere of the coincident pair. -/
def coincidentB : Sphere := mkSphere "sphere-1" "B" 600 400 0 0 100

/-- A single isolated moving sphere (used to exhibit the missing dt guard). -/
def probeSphere : Sphere := mkSphere "sphere-0" "P" 100 100 5 0 100

/-- CONFIRMED participant number `i`, registered (as the handler stores
them) under the pre-round gameId "default". -/
def c1Participant (i : ℕ) : ParticipantRec :=
  { username := "player" ++ toString i, walletAddress := "wallet" ++ toString i,
    chain := .SOL, paymentTxHash := "HASH" ++ toString i,
    normalizedTxId := "SOL:hash" ++ toString i, gameId := "default",
    status := .CONFIRMED, statusReason := none, joinedAt := (i : ℤ) }

/-- Store state for the C1 scenario: no matches yet, exactly three CONFIRMED
registrations, a schedule set. -/
def c1Db : Db :=
  { matchRows := [],
    participants := [c1Participant 0, c1Participant 1, c1Participant 2],
    scheduleNextGameTime := some 1700000000000 }

/-- In-memory state for the C1 scenario: IDLE, totalPlayers = 8, the
registration-time gameId "default". -/
def c1State : ServerGameState :=
  { status := .IDLE, spheres := [], nextGameTime := some 1700000000000,
    totalPlayers := 8, currentGameId := "default", prevStatus := .IDLE }

/-- A busy in-memory state (a match currently PLAYING). -/
def c6State : ServerGameState :=
  { status := .PLAYING, spheres := [probeSphere],
    nextGameTime := none, totalPlayers := 8,
    currentGameId := "game-1", prevStatus := .PLAYING }

/-- A breaker as the constructor builds it (CLOSED, zero failures). -/
def mkBreaker (threshold : ℕ) (reset : ℤ) : CircuitBreaker :=
  { state := .CLOSED, failureCount := 0, nextAttemptAt := 0,
    failureThreshold := threshold, resetTimeoutMs := reset }

/-- The breaker after one `execute` whose wrapped operation fails. -/
def execFail (cb : CircuitBreaker) (t : ℤ) : CircuitBreaker :=
  (cb.execute t (Except.error () : Except Unit Unit)).1

/-- The always-failing instantaneous operation used by the C9 witness. -/
def c9Attempts : ℕ → Attempt Unit Unit := fun _ => { result := .error (), durationMs := 0 }

/-- The retry options used by the C9 witness (2 retries, base 100ms, cap
150ms, no timeout). -/
def c9Options : RetryOptions :=
  { maxRetries := 2, baseDelayMs := 100, maxDelayMs := 150, timeoutMs := none }

/-- C5 witness: the surviving sphere. -/
def c5Alive : Sphere := mkSphere "sphere-0" "A" 100 100 0 0 100

/-- C5 witness: a sphere whose health is already ≤ 0 but which is not yet
flagged eliminated — the tick eliminates it. -/
def c5Dying1 : Sphere := mkSphere "sphere-1" "B" 400 100 0 0 (-1)

/-- C5 witness: the second dying sphere. -/
def c5Dying2 : Sphere := mkSphere "sphere-2" "C" 100 500 0 0 (-1)

/-- A sphere on the x axis with free mass and horizontal velocity, radius
25 as the engine builds them (head-on collision setup). -/
def headOnSphere (sid : String) (m xpos vel : ℚ) : Sphere :=
  { id := sid, name := sid, personality := "Robot", walletAddress := none,
    x := .fin xpos, y := .fin 0, vx := .fin vel, vy := .fin 0,
    radius := .fin 25, mass := .fin m, color := "#ef4444",
    health := .fin 100, maxHealth := .fin 100, damageTaken := .fin 0,
    isEliminated := false, kills := 0 }

/-- `true` exactly on the terminal events (`win`/`draw`). -/
def isTerminal : GameEvent → Bool
  | .win _ => true
  | .draw => true
  | _ => false

-- ---------------------------------------------------------------------------
-- Helper lemmas
-- ---------------------------------------------------------------------------

set_option allowUnsafeReducibility true

attribute [semireducible] Rat.add Rat.mul Rat.sub Rat.div Rat.neg Rat.inv

/-- Finite addition stays finite. -/
@[simp] theorem F.fin_add (a b : ℚ) : F.fin a + F.fin b = F.fin (a + b) := rfl

/-- Finite subtraction stays finite. -/
@[simp] theorem F.fin_sub (a b : ℚ) : F.fin a - F.fin b = F.fin (a - b) := rfl

/-- Finite multiplication stays finite. -/
@[simp] theorem F.fin_mul (a b : ℚ) : F.fin a * F.fin b = F.fin (a * b) := rfl

/-- Finite negation stays finite. -/
@[simp] theorem F.fin_neg (a : ℚ) : -F.fin a = F.fin (-a) := rfl

/-- Division of finite values with a nonzero divisor stays finite. -/
theorem F.fin_div (a b : ℚ) (hb : b ≠ 0) : F.fin a / F.fin b = F.fin (a / b) := by
  show F.div (F.fin a) (F.fin b) = F.fin (a / b)
  simp [F.div, hb]

/-- The comparison `F.lt` on finite values is the rational comparison. -/
@[simp] theorem F.lt_fin (a b : ℚ) : F.lt (F.fin a) (F.fin b) = decide (a < b) := rfl

/-- The comparison `F.le` on finite values is the rational comparison. -/
@[simp] theorem F.le_fin (a b : ℚ) : F.le (F.fin a) (F.fin b) = decide (a ≤ b) := rfl

/-- With enough fuel, `isqrtAux` computes the floor square root. -/
theorem F.isqrtAux_spec : ∀ (fuel n : ℕ), n ≤ fuel →
    F.isqrtAux fuel n * F.isqrtAux fuel n ≤ n ∧
    n < (F.isqrtAux fuel n + 1) * (F.isqrtAux fuel n + 1) := by
  intro fuel
  induction fuel with
  | zero =>
      intro n hn
      interval_cases n
      simp [F.isqrtAux]
  | succ fuel ih =>
      intro n hn
      rw [F.isqrtAux]
      by_cases h1 : n ≤ 1
      · simp only [h1, if_true]
        interval_cases n <;> simp
      · simp only [h1, if_false]
        have hrec := ih (n / 4) (by omega)
        set a := F.isqrtAux fuel (n / 4) with ha
        have hC : n / 4 * 4 ≤ n := Nat.div_mul_le_self n 4
        have hD : n < ((a + 1) * (a + 1)) * 4 :=
          (Nat.div_lt_iff_lt_mul (by norm_num)).mp hrec.2
        by_cases h2 : (2 * a + 1) * (2 * a + 1) ≤ n
        · simp only [h2, if_true]
          constructor
          · trivial
          · nlinarith [hrec.1, hrec.2]
        · simp only [h2, if_false]
          constructor
          · nlinarith [hrec.1]
          · omega

/-- The fueled integer square root of a perfect square is exact. -/
theorem F.isqrt_mul_self (t : ℕ) : F.isqrt (t * t) = t := by
  have h := F.isqrtAux_spec (t * t) (t * t) le_rfl
  rw [show F.isqrtAux (t * t) (t * t) = F.isqrt (t * t) from rfl] at h
  set r := F.isqrt (t * t) with hr
  have h1 : r ≤ t := by nlinarith [h.1]
  have h2 : t ≤ r := by nlinarith [h.2]
  omega

/-- `Math.sqrt` of a squared nonnegative rational is exact in the model. -/
theorem F.sqrt_mul_self (d : ℚ) (hd : 0 ≤ d) : F.sqrt (F.fin (d * d)) = F.fin d := by
  have hnum : (d * d).num = d.num * d.num := Rat.mul_self_num d
  have hden : (d * d).den = d.den * d.den := Rat.mul_self_den d
  have hnn : 0 ≤ d.num := Rat.num_nonneg.mpr hd
  have hnumNat : (d * d).num.toNat = d.num.toNat * d.num.toNat := by
    have : d.num * d.num = ((d.num.toNat * d.num.toNat : ℕ) : ℤ) := by
      push_cast [Int.toNat_of_nonneg hnn]
      ring
    rw [hnum, this, Int.toNat_natCast]
  have hstep : ¬ (d * d < 0) := not_lt.mpr (mul_self_nonneg d)
  rw [F.sqrt, if_neg hstep, if_pos]
  · congr 1
    rw [hnumNat, hden, F.isqrt_mul_self, F.isqrt_mul_self]
    have h3 : ((d.num.toNat : ℕ) : ℚ) = ((d.num : ℤ) : ℚ) := by
      exact_mod_cast congrArg (fun z => ((z : ℤ) : ℚ)) (Int.toNat_of_nonneg hnn)
    rw [h3]
    exact Rat.num_div_den d
  · constructor
    · rw [hnumNat, F.isqrt_mul_self]
    · rw [hden, F.isqrt_mul_self]

-- ---------------------------------------------------------------------------
-- Claim theorems
-- ---------------------------------------------------------------------------

/-- C3: evaluation at the failing input.  Two spheres with coincident
centers, status PLAYING, one tick of `updateServerPhysicsEngine` (dt = 50/3
ms, so the friction exponent is exactly 1): the contact normal is computed
as `0 / 0`, and the resulting NaN propagates into both spheres' x and y
positions.  The source has no synthetic-normal guard, so the claimed
zero-distance safety fails. -/
theorem c3_zero_distance_nan :
    ((updateServerPhysicsEngine (F.fin (50 / 3))
        { currentSpheres := [coincidentA, coincidentB],
          gameStatus := GameStatus.PLAYING }).spheres.map
      (fun s => (s.x, s.y))) = [(F.nonfin, F.nonfin), (F.nonfin, F.nonfin)] := by
  decide

/-- C4 counterexample: the claim says a tick with deltaMs ≤ 0 is a no-op
even in status PLAYING, but with dt = -1 the engine still integrates
movement: the probe sphere's x moves from 100 to 95, so the sphere set
changes and the call is not a no-op. -/
theorem c4_no_dt_guard_counterexample :
    ((updateServerPhysicsEngine (F.fin (-1))
        { currentSpheres := [probeSphere],
          gameStatus := GameStatus.PLAYING }).spheres.map Sphere.x) = [F.fin 95] ∧
    probeSphere.x = F.fin 100 ∧
    updateServerPhysicsEngine (F.fin (-1))
        { currentSpheres := [probeSphere], gameStatus := GameStatus.PLAYING } ≠
      { spheres := [probeSphere], status := GameStatus.PLAYING, events := [] } := by
  refine ⟨by decide, by decide, ?_⟩
  intro h
  have := congrArg (fun r => r.spheres.map Sphere.x) h
  revert this
  decide

/-- C4 (amended): `updateServerPhysicsEngine` is a no-op — sphere set,
status and events all unchanged/empty — whenever the current status is not
PLAYING; the source has no guard at all on deltaMs, so nothing is claimed
for non-finite or nonpositive dt (see the counterexample). -/
theorem c4_noop_unless_playing (dt : F) (context : PhysicsContext)
    (h : context.gameStatus ≠ GameStatus.PLAYING) :
    updateServerPhysicsEngine dt context =
      { spheres := context.currentSpheres, status := context.gameStatus,
        events := [] } := by
  rw [updateServerPhysicsEngine, if_pos h]

/-- C4 witness: the no-op guard theorem applied at a concrete non-PLAYING
input. -/
theorem c4_noop_unless_playing_witness :
    updateServerPhysicsEngine (F.fin (-1))
        { currentSpheres := [probeSphere], gameStatus := GameStatus.IDLE } =
      { spheres := [probeSphere], status := GameStatus.IDLE, events := [] } :=
  c4_noop_unless_playing (F.fin (-1))
    { currentSpheres := [probeSphere], gameStatus := GameStatus.IDLE }
    (by decide)

/-- C6: while the global status is anything other than IDLE (in particular
GENERATING or PLAYING), `startGameSequence` is an idempotent no-op: it
returns immediately, creating no Match row, emitting nothing and leaving
both the in-memory state and the store untouched — and therefore any
sequence of such duplicate triggers also changes nothing. -/
theorem c6_start_guard_idempotent (st : ServerGameState) (db : Db)
    (now : ℤ) (rand : ℕ → ℚ) (calls : List (ℤ × (ℕ → ℚ)))
    (h : st.status ≠ GameStatus.IDLE) :
    startGameSequence now rand st db = { state := st, db := db, emits := [] } ∧
    iterateStart calls st db = (st, db) ∧
    (iterateStart calls st db).2.matchRows = db.matchRows := by
  have base : ∀ (n : ℤ) (r : ℕ → ℚ),
      startGameSequence n r st db = { state := st, db := db, emits := [] } := by
    intro n r
    rw [startGameSequence, if_pos h]
  have iter : iterateStart calls st db = (st, db) := by
    induction calls with
    | nil => rfl
    | cons c rest ih =>
        show iterateStart rest (startGameSequence c.1 c.2 st db).state
            (startGameSequence c.1 c.2 st db).db = (st, db)
        rw [base c.1 c.2]
        exact ih
  exact ⟨base now rand, iter, by rw [iter]⟩

/-- C6 witness: the guard theorem applied at a concrete PLAYING state with
two queued duplicate triggers. -/
theorem c6_start_guard_idempotent_witness :
    startGameSequence 1000 (fun _ => 0) c6State c1Db =
      { state := c6State, db := c1Db, emits := [] } ∧
    iterateStart [(1000, fun _ => 0), (2000, fun _ => 0)] c6State c1Db =
      (c6State, c1Db) ∧
    (iterateStart [(1000, fun _ => 0), (2000, fun _ => 0)] c6State c1Db).2.matchRows
      = c1Db.matchRows :=
  c6_start_guard_idempotent c6State c1Db 1000 (fun _ => 0)
    [(1000, fun _ => 0), (2000, fun _ => 0)] (by decide)

/-- C1: evaluation at the failing input.  Scheduled start with
totalPlayers = 8 and exactly three CONFIRMED participants registered before
the trigger (stored, as the register handler stores them, under the
pre-round gameId "default").  `startGameSequence` creates exactly one Match
row and flips it to PLAYING — but because it queries CONFIRMED participants
by the freshly generated gameId (`game-<now>`), which no registration can
reference, the frozen snapshot contains 8 bots and 0 humans instead of the
claimed 3 humans + 5 bots. -/
theorem c1_snapshot_has_no_humans :
    (c1Db.participants.filter
      (fun p => p.status == RegStatus.CONFIRMED)).length = 3 ∧
    ((startGameSequence 1700000000000 (fun _ => 1/2) c1State c1Db).db.matchRows.map
      (fun m => (m.status,
        (m.participants.filter (fun p => p.isBot)).length,
        (m.participants.filter (fun p => !p.isBot)).length)))
      = [(MatchStatus.PLAYING, 8, 0)] ∧
    (startGameSequence 1700000000000 (fun _ => 1/2) c1State c1Db).state.status
      = GameStatus.PLAYING := by
  decide

/-- If some stored participant already carries the request's normalized tx
identity, the register handler answers 409 already-used and writes
nothing. -/
theorem registerHandler_conflict (db : List ParticipantRec) (g : String)
    (req : RegRequest) (v : Bool) (t : ℤ)
    (h : ∃ p ∈ db, p.normalizedTxId = normalizedTxIdOf req) :
    registerHandler db g req v t = (.conflictTxUsed, db) := by
  obtain ⟨p, hp, hid⟩ := h
  have hA : db.any (fun p => p.normalizedTxId == normalizedTxIdOf req) = true :=
    List.any_eq_true.mpr ⟨p, hp, by simp [hid]⟩
  simp only [registerHandler, hA, if_true]

/-- A registration that is not rejected by one of the three pre-checks
leaves a stored participant carrying its normalized tx identity. -/
theorem registerHandler_writes_txid (db : List ParticipantRec) (g : String)
    (req : RegRequest) (v : Bool) (t : ℤ)
    (h1 : (registerHandler db g req v t).1 ≠ RegResponse.conflictTxUsed)
    (h2 : (registerHandler db g req v t).1 ≠ RegResponse.conflictUsername)
    (h3 : (registerHandler db g req v t).1 ≠ RegResponse.walletLimitReached) :
    ∃ p ∈ (registerHandler db g req v t).2,
      p.normalizedTxId = normalizedTxIdOf req := by
  by_cases hA : db.any (fun p => p.normalizedTxId == normalizedTxIdOf req) = true
  · exact absurd (by simp only [registerHandler, hA, if_true]) h1
  · by_cases hB : db.any (fun p =>
        strToLower p.username == strToLower req.username && p.gameId == g) = true
    · exact absurd (by simp only [registerHandler, hA, hB, if_true, if_false,
        Bool.false_eq_true]) h2
    · by_cases hC : 8 ≤ (db.filter (fun p =>
          p.walletAddress == req.walletAddress && p.gameId == g &&
          p.status == RegStatus.CONFIRMED)).length
      · exact absurd (by simp only [registerHandler, hA, hB, hC, if_true,
          if_false, Bool.false_eq_true]) h3
      · simp only [registerHandler, hA, hB, hC, if_false, Bool.false_eq_true]
        by_cases hv : v = true
        · subst hv
          simp only [if_true]
          exact ⟨_, List.mem_append_right _ (List.mem_singleton_self _), rfl⟩
        · simp only [Bool.not_eq_true] at hv
          subst hv
          simp only [Bool.false_eq_true, if_false]
          exact ⟨_, List.mem_append_right _ (List.mem_singleton_self _), rfl⟩

/-- The register handler preserves global distinctness of normalizedTxId. -/
theorem registerHandler_nodup (db : List ParticipantRec) (g : String)
    (req : RegRequest) (v : Bool) (t : ℤ)
    (h : (db.map ParticipantRec.normalizedTxId).Nodup) :
    ((registerHandler db g req v t).2.map ParticipantRec.normalizedTxId).Nodup := by
  by_cases hA : db.any (fun p => p.normalizedTxId == normalizedTxIdOf req) = true
  · simpa only [registerHandler, hA, if_true] using h
  · have hnotmem : normalizedTxIdOf req ∉ db.map ParticipantRec.normalizedTxId := by
      intro hmem
      obtain ⟨p, hp, hid⟩ := List.mem_map.mp hmem
      exact hA (List.any_eq_true.mpr ⟨p, hp, by simp [hid]⟩)
    by_cases hB : db.any (fun p =>
        strToLower p.username == strToLower req.username && p.gameId == g) = true
    · simpa only [registerHandler, hA, hB, if_true, if_false,
        Bool.false_eq_true] using h
    · by_cases hC : 8 ≤ (db.filter (fun p =>
          p.walletAddress == req.walletAddress && p.gameId == g &&
          p.status == RegStatus.CONFIRMED)).length
      · simpa only [registerHandler, hA, hB, hC, if_true, if_false,
          Bool.false_eq_true] using h
      · simp only [registerHandler, hA, hB, hC, if_false, Bool.false_eq_true]
        by_cases hv : v = true
        · subst hv
          simp only [if_true, List.map_append, List.map_cons, List.map_nil]
          exact List.Nodup.append h (List.nodup_singleton _)
            (by simpa using hnotmem)
        · simp only [Bool.not_eq_true] at hv
          subst hv
          simp only [Bool.false_eq_true, if_false, List.map_append,
            List.map_cons, List.map_nil]
          exact List.Nodup.append h (List.nodup_singleton _)
            (by simpa using hnotmem)

/-- C2: replay prevention.  If a first registration attempt was not
rejected by the pre-checks (so it created a participant — CONFIRMED, or
FAILED after verification), then any second attempt whose (chain, txHash)
normalizes to the same chain-prefixed lowercased tx identity is answered
409 already-used and creates no participant, regardless of the gameId,
verification outcome or timing of either attempt; and every register step
preserves global (cross-game, cross-chain) distinctness of
normalizedTxId. -/
theorem c2_replay_prevention (db db2 : List ParticipantRec) (gid1 gid2 g2 : String)
    (r1 r2 req : RegRequest) (v1 v2 vr : Bool) (t1 t2 tr : ℤ)
    (hsame : normalizedTxIdOf r1 = normalizedTxIdOf r2)
    (h1 : (registerHandler db gid1 r1 v1 t1).1 ≠ RegResponse.conflictTxUsed)
    (h2 : (registerHandler db gid1 r1 v1 t1).1 ≠ RegResponse.conflictUsername)
    (h3 : (registerHandler db gid1 r1 v1 t1).1 ≠ RegResponse.walletLimitReached)
    (hND : (db2.map ParticipantRec.normalizedTxId).Nodup) :
    registerHandler (registerHandler db gid1 r1 v1 t1).2 gid2 r2 v2 t2
      = (RegResponse.conflictTxUsed, (registerHandler db gid1 r1 v1 t1).2) ∧
    ((registerHandler db2 g2 req vr tr).2.map ParticipantRec.normalizedTxId).Nodup := by
  constructor
  · apply registerHandler_conflict
    obtain ⟨p, hp, hid⟩ := registerHandler_writes_txid db gid1 r1 v1 t1 h1 h2 h3
    exact ⟨p, hp, hid.trans hsame⟩
  · exact registerHandler_nodup db2 g2 req vr tr hND

/-- C2 witness: a concrete first registration (SOL, hash "PayHash1",
verification passes) followed by a replay of the same hash in different
casing under the TON prefix spelled the same way — rejected with no write;
plus nodup preservation on a concrete store. -/
theorem c2_replay_prevention_witness :
    registerHandler
        (registerHandler [] "default"
          { username := "alice", walletAddress := "w1", chain := .SOL,
            paymentTxHash := "PayHash1" } true 1).2
        "default"
        { username := "bob", walletAddress := "w2", chain := .SOL,
          paymentTxHash := "PAYHASH1" } true 2
      = (RegResponse.conflictTxUsed,
        (registerHandler [] "default"
          { username := "alice", walletAddress := "w1", chain := .SOL,
            paymentTxHash := "PayHash1" } true 1).2) ∧
    ((registerHandler [c1Participant 0] "default"
        { username := "carol", walletAddress := "w3", chain := .TON,
          paymentTxHash := "TonHash9" } false 3).2.map
      ParticipantRec.normalizedTxId).Nodup :=
  c2_replay_prevention [] [c1Participant 0] "default" "default" "default"
    { username := "alice", walletAddress := "w1", chain := .SOL,
      paymentTxHash := "PayHash1" }
    { username := "bob", walletAddress := "w2", chain := .SOL,
      paymentTxHash := "PAYHASH1" }
    { username := "carol", walletAddress := "w3", chain := .TON,
      paymentTxHash := "TonHash9" }
    true true false 1 2 3 (by decide) (by decide) (by decide) (by decide)
    (by decide)

/-- C8: with failureThreshold = 3, three consecutive failed executions move
the breaker CLOSED → OPEN with resume timestamp `t3 + resetTimeoutMs` (and
it is still CLOSED after two); any call strictly before the resume
timestamp fails fast without invoking the wrapped operation and changes
nothing; the first call at/after the resume timestamp is let through as a
probe (HALF_OPEN) — on success the breaker is CLOSED with the failure
counter reset, on failure it is OPEN again with the new resume timestamp
`tLate + resetTimeoutMs`. -/
theorem c8_circuit_breaker (R t1 t2 t3 tEarly tLate : ℤ)
    (hE : tEarly < t3 + R) (hL : t3 + R ≤ tLate) :
    (execFail (execFail (mkBreaker 3 R) t1) t2).state = CircuitState.CLOSED ∧
    execFail (execFail (execFail (mkBreaker 3 R) t1) t2) t3
      = { state := .OPEN, failureCount := 3, nextAttemptAt := t3 + R,
          failureThreshold := 3, resetTimeoutMs := R } ∧
    CircuitBreaker.execute
        { state := .OPEN, failureCount := 3, nextAttemptAt := t3 + R,
          failureThreshold := 3, resetTimeoutMs := R } tEarly
        (Except.ok () : Except Unit Unit)
      = ({ state := .OPEN, failureCount := 3, nextAttemptAt := t3 + R,
           failureThreshold := 3, resetTimeoutMs := R }, .fastFailOpen) ∧
    CircuitBreaker.execute
        { state := .OPEN, failureCount := 3, nextAttemptAt := t3 + R,
          failureThreshold := 3, resetTimeoutMs := R } tEarly
        (Except.error () : Except Unit Unit)
      = ({ state := .OPEN, failureCount := 3, nextAttemptAt := t3 + R,
           failureThreshold := 3, resetTimeoutMs := R }, .fastFailOpen) ∧
    CircuitBreaker.execute
        { state := .OPEN, failureCount := 3, nextAttemptAt := t3 + R,
          failureThreshold := 3, resetTimeoutMs := R } tLate
        (Except.ok () : Except Unit Unit)
      = ({ state := .CLOSED, failureCount := 0, nextAttemptAt := t3 + R,
           failureThreshold := 3, resetTimeoutMs := R }, .ok ()) ∧
    CircuitBreaker.execute
        { state := .OPEN, failureCount := 3, nextAttemptAt := t3 + R,
          failureThreshold := 3, resetTimeoutMs := R } tLate
        (Except.error () : Except Unit Unit)
      = ({ state := .OPEN, failureCount := 4, nextAttemptAt := tLate + R,
           failureThreshold := 3, resetTimeoutMs := R }, .err) := by
  have hnotE : ¬ tLate < t3 + R := not_lt.mpr hL
  refine ⟨?_, ?_, ?_, ?_, ?_, ?_⟩
  · simp [execFail, mkBreaker, CircuitBreaker.execute, CircuitBreaker.onFailure]
  · simp [execFail, mkBreaker, CircuitBreaker.execute, CircuitBreaker.onFailure]
  · simp [CircuitBreaker.execute, hE]
  · simp [CircuitBreaker.execute, hE]
  · simp [CircuitBreaker.execute, CircuitBreaker.onSuccess, hnotE]
  · simp [CircuitBreaker.execute, CircuitBreaker.onFailure, hnotE]

/-- C8 witness: the breaker lifecycle at concrete times (reset timeout
30000ms, failures at 0/1/2, a blocked call at 100, a probe at 30002). -/
theorem c8_circuit_breaker_witness :
    (execFail (execFail (mkBreaker 3 30000) 0) 1).state = CircuitState.CLOSED ∧
    execFail (execFail (execFail (mkBreaker 3 30000) 0) 1) 2
      = { state := .OPEN, failureCount := 3, nextAttemptAt := 30002,
          failureThreshold := 3, resetTimeoutMs := 30000 } ∧
    CircuitBreaker.execute
        { state := .OPEN, failureCount := 3, nextAttemptAt := 30002,
          failureThreshold := 3, resetTimeoutMs := 30000 } 100
        (Except.ok () : Except Unit Unit)
      = ({ state := .OPEN, failureCount := 3, nextAttemptAt := 30002,
           failureThreshold := 3, resetTimeoutMs := 30000 }, .fastFailOpen) ∧
    CircuitBreaker.execute
        { state := .OPEN, failureCount := 3, nextAttemptAt := 30002,
          failureThreshold := 3, resetTimeoutMs := 30000 } 100
        (Except.error () : Except Unit Unit)
      = ({ state := .OPEN, failureCount := 3, nextAttemptAt := 30002,
           failureThreshold := 3, resetTimeoutMs := 30000 }, .fastFailOpen) ∧
    CircuitBreaker.execute
        { state := .OPEN, failureCount := 3, nextAttemptAt := 30002,
          failureThreshold := 3, resetTimeoutMs := 30000 } 30002
        (Except.ok () : Except Unit Unit)
      = ({ state := .CLOSED, failureCount := 0, nextAttemptAt := 30002,
           failureThreshold := 3, resetTimeoutMs := 30000 }, .ok ()) ∧
    CircuitBreaker.execute
        { state := .OPEN, failureCount := 3, nextAttemptAt := 30002,
          failureThreshold := 3, resetTimeoutMs := 30000 } 30002
        (Except.error () : Except Unit Unit)
      = ({ state := .OPEN, failureCount := 4, nextAttemptAt := 60002,
           failureThreshold := 3, resetTimeoutMs := 30000 }, .err) :=
  c8_circuit_breaker 30000 0 1 2 100 30002 (by decide) (by decide)

/-- Invocation-count bound for a `withRetry` run starting at attempt `a`. -/
theorem withRetry_invocations_le (attempts : ℕ → Attempt ε α) (rands : ℕ → ℚ)
    (options : RetryOptions) :
    ∀ (k a : ℕ), options.maxRetries + 1 - a ≤ k → a ≤ options.maxRetries + 1 →
      (withRetry attempts rands options a).invocations
        ≤ options.maxRetries + 2 - a := by
  intro k
  induction k with
  | zero =>
      intro a ha hle
      have hlt : options.maxRetries < a := by omega
      rw [withRetry]
      cases houtcome : attemptOutcome attempts options a with
      | ok v => simp; omega
      | error e => simp [dif_pos hlt]; omega
  | succ k ih =>
      intro a ha hle
      rw [withRetry]
      cases houtcome : attemptOutcome attempts options a with
      | ok v => simp; omega
      | error e =>
          by_cases hlt : options.maxRetries < a
          · simp [dif_pos hlt]; omega
          · simp only [dif_neg hlt]
            have := ih (a + 1) (by omega) (by omega)
            omega

/-- Shape of the delay list of a `withRetry` run starting at attempt `a`:
entry `k` is the attempt-`(a+k)` jitter draw scaled by the capped
exponential backoff. -/
theorem withRetry_delays (attempts : ℕ → Attempt ε α) (rands : ℕ → ℚ)
    (options : RetryOptions) :
    ∀ (fuel a : ℕ), options.maxRetries + 1 - a ≤ fuel →
      ∀ k, k < (withRetry attempts rands options a).delays.length →
        (withRetry attempts rands options a).delays.getD k 0
          = rands (a + k) *
            min options.maxDelayMs (options.baseDelayMs * 2 ^ (a + k - 1)) := by
  intro fuel
  induction fuel with
  | zero =>
      intro a ha k hk
      have hlt : options.maxRetries < a := by omega
      rw [withRetry] at hk ⊢
      cases houtcome : attemptOutcome attempts options a with
      | ok v => simp [houtcome] at hk
      | error e => simp [houtcome, dif_pos hlt] at hk
  | succ fuel ih =>
      intro a ha k hk
      rw [withRetry] at hk ⊢
      cases houtcome : attemptOutcome attempts options a with
      | ok v => simp [houtcome] at hk
      | error e =>
          by_cases hlt : options.maxRetries < a
          · simp [houtcome, dif_pos hlt] at hk
          · simp only [houtcome, dif_neg hlt] at hk ⊢
            cases k with
            | zero => simp
            | succ k =>
                simp only [List.getD_cons_succ]
                simp only [List.length_cons, Nat.succ_lt_succ_iff] at hk
                have := ih (a + 1) (by omega) k hk
                rw [this]
                congr 2
                · omega
                · congr 2
                  omega

/-- When every attempt from `a` through `maxRetries + 1` fails, the run
started at `a` settles with the outcome of attempt `maxRetries + 1` —
i.e. the last failure, unchanged. -/
theorem withRetry_last_error (attempts : ℕ → Attempt ε α) (rands : ℕ → ℚ)
    (options : RetryOptions) :
    ∀ (fuel a : ℕ), options.maxRetries + 1 - a ≤ fuel →
      1 ≤ a → a ≤ options.maxRetries + 1 →
      (∀ i, a ≤ i → i ≤ options.maxRetries + 1 →
        ∃ e, attemptOutcome attempts options i = Except.error e) →
      (withRetry attempts rands options a).result
        = attemptOutcome attempts options (options.maxRetries + 1) := by
  intro fuel
  induction fuel with
  | zero =>
      intro a ha h1 hle hfail
      have haeq : a = options.maxRetries + 1 := by omega
      obtain ⟨e, he⟩ := hfail a le_rfl hle
      rw [withRetry, he]
      have hlt : options.maxRetries < a := by omega
      simp [dif_pos hlt, ← haeq, he]
  | succ fuel ih =>
      intro a ha h1 hle hfail
      obtain ⟨e, he⟩ := hfail a le_rfl hle
      rw [withRetry, he]
      by_cases hlt : options.maxRetries < a
      · have haeq : a = options.maxRetries + 1 := by omega
        simp [dif_pos hlt, ← haeq, he]
      · simp only [dif_neg hlt]
        exact ih (a + 1) (by omega) (by omega) (by omega)
          (fun i hi hi2 => hfail i (by omega) hi2)

/-- C9: `withRetry` invokes the operation at most maxRetries + 1 times; the
k-th backoff wait equals the attempt-(k+1) `Math.random()` draw scaled by
`min(maxDelayMs, baseDelayMs * 2^k)` and hence lies in that closed range;
and when every attempt fails, the settled result is exactly the outcome of
the last attempt (attempt maxRetries + 1) — the last error propagated
unchanged, not swallowed or wrapped. -/
theorem c9_with_retry (attempts : ℕ → Attempt ε α) (rands : ℕ → ℚ)
    (options : RetryOptions) (k : ℕ)
    (hr : ∀ i, 0 ≤ rands i ∧ rands i < 1)
    (hbase : 0 ≤ options.baseDelayMs) (hmax : 0 ≤ options.maxDelayMs) :
    (withRetry attempts rands options 1).invocations ≤ options.maxRetries + 1 ∧
    (k < (withRetry attempts rands options 1).delays.length →
      (withRetry attempts rands options 1).delays.getD k 0
        = rands (k + 1) * min options.maxDelayMs (options.baseDelayMs * 2 ^ k) ∧
      0 ≤ (withRetry attempts rands options 1).delays.getD k 0 ∧
      (withRetry attempts rands options 1).delays.getD k 0
        ≤ min options.maxDelayMs (options.baseDelayMs * 2 ^ k)) ∧
    ((∀ i, 1 ≤ i → i ≤ options.maxRetries + 1 →
        ∃ e, attemptOutcome attempts options i = Except.error e) →
      (withRetry attempts rands options 1).result
        = attemptOutcome attempts options (options.maxRetries + 1)) := by
  refine ⟨?_, ?_, ?_⟩
  · have := withRetry_invocations_le attempts rands options
      (options.maxRetries + 1 - 1) 1 le_rfl (by omega)
    omega
  · intro hk
    have heq := withRetry_delays attempts rands options
      (options.maxRetries + 1 - 1) 1 le_rfl k hk
    have hcap : 0 ≤ min options.maxDelayMs (options.baseDelayMs * 2 ^ k) :=
      le_min hmax (by positivity)
    have hshift : 1 + k - 1 = k := by omega
    rw [hshift] at heq
    rw [Nat.add_comm 1 k] at heq
    refine ⟨heq, ?_, ?_⟩
    · rw [heq]
      exact mul_nonneg (hr (k + 1)).1 hcap
    · rw [heq]
      calc rands (k + 1) * min options.maxDelayMs (options.baseDelayMs * 2 ^ k)
          ≤ 1 * min options.maxDelayMs (options.baseDelayMs * 2 ^ k) := by
            apply mul_le_mul_of_nonneg_right (le_of_lt (hr (k + 1)).2) hcap
        _ = min options.maxDelayMs (options.baseDelayMs * 2 ^ k) := one_mul _
  · intro hfail
    exact withRetry_last_error attempts rands options
      (options.maxRetries + 1 - 1) 1 le_rfl le_rfl (by omega) hfail

/-- C9 witness: the retry theorem applied to a concrete always-failing
operation with `Math.random()` pinned to 1/2 and delay index k = 1. -/
theorem c9_with_retry_witness :
    (withRetry c9Attempts (fun _ => 1/2) c9Options 1).invocations ≤ 3 ∧
    (1 < (withRetry c9Attempts (fun _ => 1/2) c9Options 1).delays.length →
      (withRetry c9Attempts (fun _ => 1/2) c9Options 1).delays.getD 1 0
        = (1/2 : ℚ) * min 150 (100 * 2 ^ 1) ∧
      0 ≤ (withRetry c9Attempts (fun _ => 1/2) c9Options 1).delays.getD 1 0 ∧
      (withRetry c9Attempts (fun _ => 1/2) c9Options 1).delays.getD 1 0
        ≤ min 150 (100 * 2 ^ 1)) ∧
    ((∀ i, 1 ≤ i → i ≤ 3 →
        ∃ e, attemptOutcome c9Attempts c9Options i = Except.error e) →
      (withRetry c9Attempts (fun _ => 1/2) c9Options 1).result
        = attemptOutcome c9Attempts c9Options 3) :=
  c9_with_retry c9Attempts (fun _ => 1/2) c9Options 1
    (fun _ => by norm_num) (by norm_num [c9Options]) (by norm_num [c9Options])

/-- A passed Solana verification leaves the unprefixed cache key present. -/
theorem verifySolana_true_cache (cfg : VerifyConfig) (cache : List String)
    (rpcTx : Option SolanaTx) (h w : String) :
    (verifySolanaTransaction cfg cache rpcTx h w).verified = true →
    ((verifySolanaTransaction cfg cache rpcTx h w).cache).contains (cacheKey h)
      = true := by
  cases rpcTx with
  | none =>
      unfold verifySolanaTransaction
      split
      · next hcond => exact fun _ => hcond
      · intro hv; simp at hv
  | some tx =>
      unfold verifySolanaTransaction
      split
      · next hcond => exact fun _ => hcond
      · dsimp only
        repeat' split
        all_goals first
          | (intro _; simp; done)
          | (intro hv; simp at hv)

/-- A passed TON verification leaves the unprefixed cache key present. -/
theorem verifyTon_true_cache (cfg : VerifyConfig) (parseRaw : String → Option String)
    (cache : List String) (jettonResp : Option (List TonTransfer))
    (v2Found : Option Bool) (h w : String) :
    (verifyTonTransaction cfg parseRaw cache jettonResp v2Found h w).verified = true →
    ((verifyTonTransaction cfg parseRaw cache jettonResp v2Found h w).cache).contains
        (cacheKey h) = true := by
  unfold verifyTonTransaction
  split
  · next hcond => exact fun _ => hcond
  · dsimp only
    repeat' split
    all_goals first
      | (intro _; simp; done)
      | (intro hv; simp at hv)

/-- C10: the verification cache is keyed by the raw hash alone
(`tx_verify:<hash>`, no chain discriminator), so (a) once the key for hash
`h` is cached, both `verifySolanaTransaction` and `verifyTonTransaction`
return true for `h` with any expected wallet, performing zero chain lookups
and leaving the cache unchanged; and (b) a true result from one chain's
verifier (which writes that key) makes the other chain's verifier — and any
wallet — short-circuit to true with zero chain lookups. -/
theorem c10_cache_cross_chain (cfg : VerifyConfig) (cache cache2 cache3 : List String)
    (rpcTx rpcTx2 : Option SolanaTx) (parseRaw : String → Option String)
    (jettonResp jettonResp2 : Option (List TonTransfer))
    (v2Found v2Found2 : Option Bool) (h w1 w2 w3 w4 : String)
    (hc : cache.contains (cacheKey h) = true) :
    verifyTonTransaction cfg parseRaw cache jettonResp v2Found h w1
      = { verified := true, cache := cache, rpcLookups := 0 } ∧
    verifySolanaTransaction cfg cache rpcTx h w2
      = { verified := true, cache := cache, rpcLookups := 0 } ∧
    ((verifySolanaTransaction cfg cache2 rpcTx h w3).verified = true →
      verifyTonTransaction cfg parseRaw
          (verifySolanaTransaction cfg cache2 rpcTx h w3).cache
          jettonResp v2Found h w1
        = { verified := true,
            cache := (verifySolanaTransaction cfg cache2 rpcTx h w3).cache,
            rpcLookups := 0 }) ∧
    ((verifyTonTransaction cfg parseRaw cache3 jettonResp2 v2Found2 h w4).verified
        = true →
      verifySolanaTransaction cfg
          (verifyTonTransaction cfg parseRaw cache3 jettonResp2 v2Found2 h w4).cache
          rpcTx2 h w2
        = { verified := true,
            cache := (verifyTonTransaction cfg parseRaw cache3 jettonResp2
              v2Found2 h w4).cache,
            rpcLookups := 0 }) := by
  refine ⟨?_, ?_, ?_, ?_⟩
  · unfold verifyTonTransaction
    rw [if_pos hc]
  · unfold verifySolanaTransaction
    rw [if_pos hc]
  · intro hv
    have hmem := verifySolana_true_cache cfg cache2 rpcTx h w3 hv
    conv_lhs => unfold verifyTonTransaction
    rw [if_pos hmem]
  · intro hv
    have hmem := verifyTon_true_cache cfg parseRaw cache3 jettonResp2 v2Found2 h w4 hv
    conv_lhs => unfold verifySolanaTransaction
    rw [if_pos hmem]

/-- C10 witness: the cache-collision theorem at a concrete configuration
and cache holding `tx_verify:abc`, with different wallets on each call. -/
theorem c10_cache_cross_chain_witness :
    verifyTonTransaction
        { SOL_RECIPIENT := "R", SOL_USDT_MINT := "M", TON_RECIPIENT := "TR",
          TON_JETTON_MASTER := "TJ", REQUIRED_AMOUNT_ATOMIC := 2000000 }
        (fun _ => none) [cacheKey "abc"] none none "abc" "walletA"
      = { verified := true, cache := [cacheKey "abc"], rpcLookups := 0 } ∧
    verifySolanaTransaction
        { SOL_RECIPIENT := "R", SOL_USDT_MINT := "M", TON_RECIPIENT := "TR",
          TON_JETTON_MASTER := "TJ", REQUIRED_AMOUNT_ATOMIC := 2000000 }
        [cacheKey "abc"] none "abc" "walletB"
      = { verified := true, cache := [cacheKey "abc"], rpcLookups := 0 } ∧
    ((verifySolanaTransaction
        { SOL_RECIPIENT := "R", SOL_USDT_MINT := "M", TON_RECIPIENT := "TR",
          TON_JETTON_MASTER := "TJ", REQUIRED_AMOUNT_ATOMIC := 2000000 }
        [cacheKey "abc"] none "abc" "walletC").verified = true →
      verifyTonTransaction
          { SOL_RECIPIENT := "R", SOL_USDT_MINT := "M", TON_RECIPIENT := "TR",
            TON_JETTON_MASTER := "TJ", REQUIRED_AMOUNT_ATOMIC := 2000000 }
          (fun _ => none)
          (verifySolanaTransaction
            { SOL_RECIPIENT := "R", SOL_USDT_MINT := "M", TON_RECIPIENT := "TR",
              TON_JETTON_MASTER := "TJ", REQUIRED_AMOUNT_ATOMIC := 2000000 }
            [cacheKey "abc"] none "abc" "walletC").cache
          none none "abc" "walletA"
        = { verified := true,
            cache := (verifySolanaTransaction
              { SOL_RECIPIENT := "R", SOL_USDT_MINT := "M", TON_RECIPIENT := "TR",
                TON_JETTON_MASTER := "TJ", REQUIRED_AMOUNT_ATOMIC := 2000000 }
              [cacheKey "abc"] none "abc" "walletC").cache,
            rpcLookups := 0 }) ∧
    ((verifyTonTransaction
        { SOL_RECIPIENT := "R", SOL_USDT_MINT := "M", TON_RECIPIENT := "TR",
          TON_JETTON_MASTER := "TJ", REQUIRED_AMOUNT_ATOMIC := 2000000 }
        (fun _ => none) ["other"] none none "abc" "walletD").verified = true →
      verifySolanaTransaction
          { SOL_RECIPIENT := "R", SOL_USDT_MINT := "M", TON_RECIPIENT := "TR",
            TON_JETTON_MASTER := "TJ", REQUIRED_AMOUNT_ATOMIC := 2000000 }
          (verifyTonTransaction
            { SOL_RECIPIENT := "R", SOL_USDT_MINT := "M", TON_RECIPIENT := "TR",
              TON_JETTON_MASTER := "TJ", REQUIRED_AMOUNT_ATOMIC := 2000000 }
            (fun _ => none) ["other"] none none "abc" "walletD").cache
          none "abc" "walletB"
        = { verified := true,
            cache := (verifyTonTransaction
              { SOL_RECIPIENT := "R", SOL_USDT_MINT := "M", TON_RECIPIENT := "TR",
                TON_JETTON_MASTER := "TJ", REQUIRED_AMOUNT_ATOMIC := 2000000 }
              (fun _ => none) ["other"] none none "abc" "walletD").cache,
            rpcLookups := 0 }) :=
  c10_cache_cross_chain
    { SOL_RECIPIENT := "R", SOL_USDT_MINT := "M", TON_RECIPIENT := "TR",
      TON_JETTON_MASTER := "TJ", REQUIRED_AMOUNT_ATOMIC := 2000000 }
    [cacheKey "abc"] [cacheKey "abc"] ["other"] none none (fun _ => none)
    none none none none "abc" "walletA" "walletB" "walletC" "walletD"
    (by decide)

/-- The pairwise interaction emits only `collision` events, never a
terminal one. -/
theorem collidePair_no_terminal (e : F) (s s2 : Sphere) :
    ((collidePair e s s2).2.2).filter isTerminal = [] := by
  unfold collidePair
  dsimp only
  repeat' split
  all_goals rfl

/-- One inner-loop step never emits a terminal event. -/
theorem pairAt_no_terminal (i j : ℕ) (st : List Sphere × List GameEvent) :
    ((pairAt i st j).2).filter isTerminal = (st.2).filter isTerminal := by
  unfold pairAt
  dsimp only
  rw [List.filter_append, collidePair_no_terminal, List.append_nil]

/-- The whole inner loop never emits a terminal event. -/
theorem foldl_pairAt_no_terminal (i : ℕ) (js : List ℕ) :
    ∀ st : List Sphere × List GameEvent,
      ((js.foldl (pairAt i) st).2).filter isTerminal = (st.2).filter isTerminal := by
  induction js with
  | nil => intro st; rfl
  | cons j rest ih =>
      intro st
      rw [List.foldl_cons, ih, pairAt_no_terminal]

/-- One outer-loop step emits only collision / eliminated events. -/
theorem outerAt_no_terminal (st : List Sphere × List GameEvent) (i : ℕ) :
    ((outerAt st i).2).filter isTerminal = (st.2).filter isTerminal := by
  unfold outerAt
  dsimp only
  split
  · rw [List.filter_append, foldl_pairAt_no_terminal]
    simp [isTerminal]
  · rw [foldl_pairAt_no_terminal]

/-- The wall/pair/elimination loop as a whole emits no terminal event. -/
theorem foldl_outerAt_no_terminal (idxs : List ℕ) :
    ∀ st : List Sphere × List GameEvent,
      ((idxs.foldl outerAt st).2).filter isTerminal = (st.2).filter isTerminal := by
  induction idxs with
  | nil => intro st; rfl
  | cons i rest ih =>
      intro st
      rw [List.foldl_cons, ih, outerAt_no_terminal]

/-- C5: terminal edge-trigger.  In status PLAYING, comparing the alive
count before the tick with the filtered survivor count after it: on the
crossing tick (before > 1, after ≤ 1) the status is set to FINISHED and
exactly one terminal event is appended — a single `win` carrying the sole
survivor's name when one sphere remains, a single `draw` when none does;
when no crossing happens (e.g. 3 alive, 1 eliminated, 2 remain) the status
stays PLAYING and no terminal event at all is emitted; and a subsequent
tick on the now-FINISHED status emits nothing, so the transition fires only
on the crossing tick. -/
theorem c5_terminal_edge_trigger (dt dt2 : F) (context : PhysicsContext)
    (spheres2 : List Sphere)
    (hplay : context.gameStatus = GameStatus.PLAYING) :
    ((1 < (context.currentSpheres.filter (fun s => !s.isEliminated)).length ∧
      (updateServerPhysicsEngine dt context).spheres.length ≤ 1) →
      (updateServerPhysicsEngine dt context).status = GameStatus.FINISHED ∧
      ((updateServerPhysicsEngine dt context).spheres.length = 1 →
        ((updateServerPhysicsEngine dt context).events).filter isTerminal
          = [GameEvent.win
              (((updateServerPhysicsEngine dt context).spheres.headD
                defaultSphere).name)]) ∧
      ((updateServerPhysicsEngine dt context).spheres.length = 0 →
        ((updateServerPhysicsEngine dt context).events).filter isTerminal
          = [GameEvent.draw])) ∧
    (¬ (1 < (context.currentSpheres.filter (fun s => !s.isEliminated)).length ∧
        (updateServerPhysicsEngine dt context).spheres.length ≤ 1) →
      (updateServerPhysicsEngine dt context).status = GameStatus.PLAYING ∧
      ((updateServerPhysicsEngine dt context).events).filter isTerminal = []) ∧
    (updateServerPhysicsEngine dt2
        { currentSpheres := spheres2, gameStatus := GameStatus.FINISHED }).events
      = [] := by
  obtain ⟨spheres, status⟩ := context
  dsimp only at hplay
  subst hplay
  have hev : ∀ l : List Sphere,
      ((((List.range l.length).foldl outerAt (l, ([] : List GameEvent))).2).filter
        isTerminal) = [] := by
    intro l
    rw [foldl_outerAt_no_terminal]
    rfl
  refine ⟨?_, ?_, ?_⟩
  · rw [updateServerPhysicsEngine, if_neg (by simp)]
    dsimp only
    split_ifs with hcross hone
    · intro _
      refine ⟨rfl, ?_, ?_⟩
      · intro _
        dsimp only
        rw [List.filter_append, hev]
        rfl
      · intro hzero
        dsimp only at hzero
        omega
    · intro _
      refine ⟨rfl, ?_, ?_⟩
      · intro hone2
        dsimp only at hone2
        exact absurd hone2 hone
      · intro _
        dsimp only
        rw [List.filter_append, hev]
        rfl
    · intro hc
      dsimp only at hc
      exact absurd ⟨hc.1, hc.2⟩ hcross
  · rw [updateServerPhysicsEngine, if_neg (by simp)]
    dsimp only
    split_ifs with hcross hone
    · intro hc
      dsimp only at hc
      exact absurd ⟨hcross.1, hcross.2⟩ hc
    · intro hc
      dsimp only at hc
      exact absurd ⟨hcross.1, hcross.2⟩ hc
    · intro _
      exact ⟨rfl, hev _⟩
  · rw [updateServerPhysicsEngine, if_pos (by simp)]

/-- C5 witness: the edge-trigger theorem applied to three alive spheres of
which two die on the tick — the crossing tick leaves one survivor, fires
FINISHED and exactly one `win` event, and a follow-up tick on FINISHED
emits nothing. -/
theorem c5_terminal_edge_trigger_witness :
    (((updateServerPhysicsEngine (F.fin (50/3))
        { currentSpheres := [c5Alive, c5Dying1, c5Dying2],
          gameStatus := GameStatus.PLAYING }).events).filter isTerminal
      = [GameEvent.win "A"]) ∧
    (updateServerPhysicsEngine (F.fin (50/3))
        { currentSpheres := [c5Alive, c5Dying1, c5Dying2],
          gameStatus := GameStatus.PLAYING }).spheres.length = 1 ∧
    1 < (([c5Alive, c5Dying1, c5Dying2].filter (fun s => !s.isEliminated)).length) ∧
    ((1 < (([c5Alive, c5Dying1, c5Dying2].filter (fun s => !s.isEliminated)).length) ∧
      (updateServerPhysicsEngine (F.fin (50/3))
        { currentSpheres := [c5Alive, c5Dying1, c5Dying2],
          gameStatus := GameStatus.PLAYING }).spheres.length ≤ 1) →
      (updateServerPhysicsEngine (F.fin (50/3))
        { currentSpheres := [c5Alive, c5Dying1, c5Dying2],
          gameStatus := GameStatus.PLAYING }).status = GameStatus.FINISHED ∧
      ((updateServerPhysicsEngine (F.fin (50/3))
        { currentSpheres := [c5Alive, c5Dying1, c5Dying2],
          gameStatus := GameStatus.PLAYING }).spheres.length = 1 →
        ((updateServerPhysicsEngine (F.fin (50/3))
          { currentSpheres := [c5Alive, c5Dying1, c5Dying2],
            gameStatus := GameStatus.PLAYING }).events).filter isTerminal
          = [GameEvent.win
              (((updateServerPhysicsEngine (F.fin (50/3))
                { currentSpheres := [c5Alive, c5Dying1, c5Dying2],
                  gameStatus := GameStatus.PLAYING }).spheres.headD
                defaultSphere).name)]) ∧
      ((updateServerPhysicsEngine (F.fin (50/3))
        { currentSpheres := [c5Alive, c5Dying1, c5Dying2],
          gameStatus := GameStatus.PLAYING }).spheres.length = 0 →
        ((updateServerPhysicsEngine (F.fin (50/3))
          { currentSpheres := [c5Alive, c5Dying1, c5Dying2],
            gameStatus := GameStatus.PLAYING }).events).filter isTerminal
          = [GameEvent.draw])) ∧
    (¬ (1 < (([c5Alive, c5Dying1, c5Dying2].filter (fun s => !s.isEliminated)).length) ∧
        (updateServerPhysicsEngine (F.fin (50/3))
          { currentSpheres := [c5Alive, c5Dying1, c5Dying2],
            gameStatus := GameStatus.PLAYING }).spheres.length ≤ 1) →
      (updateServerPhysicsEngine (F.fin (50/3))
        { currentSpheres := [c5Alive, c5Dying1, c5Dying2],
          gameStatus := GameStatus.PLAYING }).status = GameStatus.PLAYING ∧
      ((updateServerPhysicsEngine (F.fin (50/3))
        { currentSpheres := [c5Alive, c5Dying1, c5Dying2],
          gameStatus := GameStatus.PLAYING }).events).filter isTerminal = []) ∧
    (updateServerPhysicsEngine (F.fin 1)
        { currentSpheres := [probeSphere],
          gameStatus := GameStatus.FINISHED }).events = [] :=
  ⟨by decide, by decide, by decide,
    c5_terminal_edge_trigger (F.fin (50/3)) (F.fin 1)
      { currentSpheres := [c5Alive, c5Dying1, c5Dying2],
        gameStatus := GameStatus.PLAYING }
      [probeSphere] rfl⟩

/-- `Math.abs` on a finite value. -/
@[simp] theorem F.abs_fin (a : ℚ) : F.abs (F.fin a) = F.fin |a| := rfl

/-- C7: momentum conservation of the impulse-based velocity update.  Two
spheres of masses m1 and m2 on the x axis, overlapping (0 < x2 − x1 < sum
of radii), colliding head-on with equal and opposite velocities (v and −v,
v > 0), resolved by the engine's pairwise collision routine with the
elasticity coefficient set to 1: the post-collision velocities satisfy
m1·v1' + m2·v2' = m1·v1 + m2·v2 exactly, on both axes. -/
theorem c7_momentum_conservation (m1 m2 v x1 x2 : ℚ)
    (hm1 : 0 < m1) (hm2 : 0 < m2) (hv : 0 < v)
    (hx : x1 < x2) (hover : x2 - x1 < 50) :
    F.fin m1 * ((collidePair (F.fin 1) (headOnSphere "sphere-0" m1 x1 v)
        (headOnSphere "sphere-1" m2 x2 (-v))).1).vx
      + F.fin m2 * ((collidePair (F.fin 1) (headOnSphere "sphere-0" m1 x1 v)
        (headOnSphere "sphere-1" m2 x2 (-v))).2.1).vx
      = F.fin m1 * (headOnSphere "sphere-0" m1 x1 v).vx
      + F.fin m2 * (headOnSphere "sphere-1" m2 x2 (-v)).vx ∧
    F.fin m1 * ((collidePair (F.fin 1) (headOnSphere "sphere-0" m1 x1 v)
        (headOnSphere "sphere-1" m2 x2 (-v))).1).vy
      + F.fin m2 * ((collidePair (F.fin 1) (headOnSphere "sphere-0" m1 x1 v)
        (headOnSphere "sphere-1" m2 x2 (-v))).2.1).vy
      = F.fin m1 * (headOnSphere "sphere-0" m1 x1 v).vy
      + F.fin m2 * (headOnSphere "sphere-1" m2 x2 (-v)).vy := by
  have hd0 : (0 : ℚ) < x2 - x1 := by linarith
  have hdne : (x2 - x1 : ℚ) ≠ 0 := ne_of_gt hd0
  have hm1ne : m1 ≠ 0 := ne_of_gt hm1
  have hm2ne : m2 ≠ 0 := ne_of_gt hm2
  have hMne : (m1 + m2 : ℚ) ≠ 0 := by positivity
  have hsumne : (1 / m1 + 1 / m2 : ℚ) ≠ 0 := by positivity
  unfold collidePair headOnSphere
  dsimp only
  simp only [F.fin_sub, F.fin_add, F.fin_mul, F.fin_neg]
  rw [show ((x2 - x1) * (x2 - x1) + (0 - 0) * (0 - 0) : ℚ)
      = (x2 - x1) * (x2 - x1) by ring]
  rw [F.sqrt_mul_self (x2 - x1) (le_of_lt hd0)]
  simp only [F.fin_div _ _ hdne, F.fin_div _ _ hm1ne, F.fin_div _ _ hm2ne,
    F.fin_add, F.fin_sub, F.fin_mul, F.fin_neg, F.fin_div _ _ hMne,
    F.fin_div _ _ hsumne, F.lt_fin, F.abs_fin]
  rw [if_pos (by simp only [decide_eq_true_eq]; linarith)]
  rw [if_pos (by
    simp only [decide_eq_true_eq]
    rw [div_self hdne]
    have hz : ((0 - 0 : ℚ) * ((0 - 0) / (x2 - x1))) = 0 := by ring
    rw [hz]
    linarith)]
  split_ifs with hforce <;>
    refine ⟨?_, ?_⟩ <;>
      (dsimp only
       simp only [F.fin_mul, F.fin_add]
       congr 1
       field_simp
       try ring)

/-- C7 witness: the momentum theorem at masses 25/25, speed 10, centers
600 and 630 (overlap 20), elasticity 1; the evaluated closing equality also
checked concretely. -/
theorem c7_momentum_conservation_witness :
    (F.fin 25 * ((collidePair (F.fin 1) (headOnSphere "sphere-0" 25 600 10)
        (headOnSphere "sphere-1" 25 630 (-10))).1).vx
      + F.fin 25 * ((collidePair (F.fin 1) (headOnSphere "sphere-0" 25 600 10)
        (headOnSphere "sphere-1" 25 630 (-10))).2.1).vx
      = F.fin 25 * (headOnSphere "sphere-0" 25 600 10).vx
      + F.fin 25 * (headOnSphere "sphere-1" 25 630 (-10)).vx ∧
    F.fin 25 * ((collidePair (F.fin 1) (headOnSphere "sphere-0" 25 600 10)
        (headOnSphere "sphere-1" 25 630 (-10))).1).vy
      + F.fin 25 * ((collidePair (F.fin 1) (headOnSphere "sphere-0" 25 600 10)
        (headOnSphere "sphere-1" 25 630 (-10))).2.1).vy
      = F.fin 25 * (headOnSphere "sphere-0" 25 600 10).vy
      + F.fin 25 * (headOnSphere "sphere-1" 25 630 (-10)).vy) ∧
    ((collidePair (F.fin 1) (headOnSphere "sphere-0" 25 600 10)
        (headOnSphere "sphere-1" 25 630 (-10))).1).vx = F.fin (-10) ∧
    ((collidePair (F.fin 1) (headOnSphere "sphere-0" 25 600 10)
        (headOnSphere "sphere-1" 25 630 (-10))).2.1).vx = F.fin 10 :=
  ⟨c7_momentum_conservation 25 25 10 600 630 (by norm_num) (by norm_num)
      (by norm_num) (by norm_num) (by norm_num),
    by decide, by decide⟩

end SphereRoyale
